import Mathlib

/-!
Verification of the DocTalk document question-answering application
(`src/app.py`) against its natural-language specification.

The Python source is shallowly embedded: external collaborators (the Drive
client, the text splitter, the embedding model and the generation model) are
parameters of the embedded functions; Python exceptions are modelled with
`Except` / `Option`; Python truthiness of a string (`if content:`) is the
test against the empty string.
-/

namespace DocTalk

/-- A document descriptor as returned by `drive_service.files().list`
(fields `id, name, mimeType`), the unit iterated over by
`create_vector_db` in `src/app.py`. -/
structure Doc where
  id : String
  name : String
  mimeType : String
  deriving DecidableEq, Repr

/-- A text fragment with provenance, the embedded image of a LangChain
`Document` produced by `RecursiveCharacterTextSplitter.create_documents`
with `metadatas=[{"source": doc['name']}]` (src/app.py lines 104-105). -/
structure Frag where
  text : String
  source : String
  deriving DecidableEq, Repr

/-! ## get_doc_content (src/app.py lines 56-81)

The Drive download is modelled by two functions from file ids to a fetch
result: `exportMedia` (used for native Google Docs) and `getMedia` (used for
plain-text/markdown files).  A fetch either yields raw bytes or raises
`HttpError`.  UTF-8 decoding of the bytes is modelled by a `decode`
function returning `none` exactly when Python's `bytes.decode('utf-8')`
would raise `UnicodeDecodeError`. -/

/-- Result of a Drive media request: bytes on success, or an `HttpError`
carrying a message. -/
inductive FetchResult where
  | ok (bytes : List Nat)
  | httpError (msg : String)
  deriving DecidableEq, Repr

/-- The mimeType string that selects the export path in `get_doc_content`. -/
def googleDocMime : String := "application/vnd.google-apps.document"

/-- Embedding of `get_doc_content` (src/app.py lines 56-81).
The `try` block catches only `HttpError` and returns the empty string; a
decoding failure (`UnicodeDecodeError`) is not caught and propagates, which
we model as `Except.error`. -/
def get_doc_content (exportMedia getMedia : String → FetchResult)
    (decode : List Nat → Option String) (doc : Doc) : Except String String :=
  let req := if doc.mimeType = googleDocMime then exportMedia doc.id
             else getMedia doc.id
  match req with
  | FetchResult.httpError _ => Except.ok ""
  | FetchResult.ok bytes =>
    match decode bytes with
    | some s => Except.ok s
    | none => Except.error "UnicodeDecodeError"

/-! ## create_vector_db (src/app.py lines 83-121)

`fetch` abstracts `get_doc_content`'s returned string (the build itself
only ever sees the returned text: `content = get_doc_content(doc)`), and
`split` abstracts `RecursiveCharacterTextSplitter`'s splitting of one
document's content into chunk texts.  The index is the list of fragments.
The second component of the result records the trace of fragment batches
handed to the embedding/index construction: the source performs exactly one
`FAISS.from_documents` call over the entire accumulated list
(src/app.py line 117). -/

/-- The fragments produced from one document's content: each chunk text is
tagged with the document's display name (src/app.py lines 104-105). -/
def docFragments (split : String → List String) (content : String)
    (name : String) : List Frag :=
  (split content).map (fun t => { text := t, source := name })

/-- The accumulation loop of `create_vector_db` (src/app.py lines 97-107):
documents are processed in listing order; a document whose fetched content
is empty (Python falsy) contributes nothing. -/
def buildFragments (fetch : Doc → String) (split : String → List String) :
    List Doc → List Frag
  | [] => []
  | d :: ds =>
    (if fetch d = "" then [] else docFragments split (fetch d) d.name)
      ++ buildFragments fetch split ds

/-- Embedding of `create_vector_db` (src/app.py lines 83-121).
Returns the optional index (`None` for an empty document list or when no
fragment accumulated) together with the list of fragment batches passed to
embedding/index construction.  The source makes a single
`FAISS.from_documents` call with all accumulated fragments, so the trace is
a one-element list. -/
def create_vector_db (fetch : Doc → String) (split : String → List String)
    (docs : List Doc) : Option (List Frag) × List (List Frag) :=
  if docs = [] then (none, [])
  else
    let frags := buildFragments fetch split docs
    if frags = [] then (none, [])
    else (some frags, [frags])

/-! ## Recursive folder traversal (src/app.py lines 33-54)

`get_all_docs_from_folder` lists the eligible documents of a folder and
recurses into every sub-folder, with no cycle guard.  The Drive folder
structure is a `FolderStore`; the unbounded Python recursion is embedded
with explicit fuel: `none` means the recursion has not terminated within
the given depth. -/

/-- The document store's view of the folder tree: the eligible documents
directly in a folder, and its direct sub-folder ids. -/
structure FolderStore where
  docsIn : String → List Doc
  subfoldersOf : String → List String

/-- The loop `for subfolder in subfolders: docs.extend(recursive call)`
(src/app.py lines 49-50), propagating non-termination (`none`) of any
recursive call. -/
def traverseAll (f : String → Option (List Doc)) :
    List String → Option (List Doc)
  | [] => some []
  | s :: ss =>
    match f s with
    | none => none
    | some r =>
      match traverseAll f ss with
      | none => none
      | some rs => some (r ++ rs)

/-- Fuel-indexed embedding of `get_all_docs_from_folder`
(src/app.py lines 33-54): documents of the folder, followed by the
recursive results for each sub-folder in order.  `none` signals that the
recursion exceeds the available depth (the Python source would still be
recursing). -/
def get_all_docs_from_folder (store : FolderStore) :
    Nat → String → Option (List Doc)
  | 0, _ => none
  | n + 1, folderId =>
    match traverseAll (fun sub => get_all_docs_from_folder store n sub)
        (store.subfoldersOf folderId) with
    | none => none
    | some rs => some (store.docsIn folderId ++ rs)

/-- A folder id all of whose sub-folder chains are shorter than the given
bound: the well-foundedness witness under which the source's recursion
terminates. -/
inductive ReachDepth (store : FolderStore) : Nat → String → Prop where
  | step (n : Nat) (folderId : String)
      (h : ∀ sub ∈ store.subfoldersOf folderId, ReachDepth store n sub) :
      ReachDepth store (n + 1) folderId

/-! ## Retrieval (src/app.py lines 168-174)

The source delegates retrieval to `vector_db.as_retriever()` /
`get_relevant_documents`, i.e. FAISS similarity search, which is not part
of this repository.  Modelled from the spec (section 4.4): nearest-neighbor
search returns the indexed fragments ordered by decreasing similarity
score, truncated to the top `k`; `as_retriever()`'s default `k` is 4. -/

/-- Insert a fragment into a score-descending list, keeping it sorted. -/
def insertScored (score : Frag → Int) (f : Frag) : List Frag → List Frag
  | [] => [f]
  | g :: gs =>
    if score g < score f then f :: g :: gs else g :: insertScored score f gs

/-- Order the index by decreasing similarity score (insertion sort). -/
def rankByScore (score : Frag → Int) : List Frag → List Frag
  | [] => []
  | f :: fs => insertScored score f (rankByScore score fs)

/-- Default number of retrieved fragments of `as_retriever()`. -/
def defaultK : Nat := 4

/-- Modelled from the spec: similarity retrieval over the index
(`retriever.get_relevant_documents`, src/app.py line 174, implemented by
the FAISS library, which is outside this repository).  Returns the `k`
highest-scoring fragments, most similar first. -/
def retrieve (score : Frag → Int) (index : List Frag) (k : Nat) :
    List Frag :=
  (rankByScore score index).take k

/-! ## The "Obtener Respuesta" handler (src/app.py lines 162-186)

The handler runs only when an index exists (the button is disabled
otherwise).  `retrieveDocs` abstracts `retriever.get_relevant_documents`;
`gen` abstracts the single generation call performed by the LangChain
`stuff` question-answering chain, which concatenates the retrieved
fragments into one prompt and calls the model exactly once, with no check
for an empty document list.  The handler body contains no try/except, so a
generation failure propagates as a raw exception (`uncaught`).  The second
component of the result counts generation-model invocations. -/

/-- Outcome of one run of the answer handler. -/
inductive HandlerOutcome where
  | answer (text : String) (sources : Finset String)
  | warnEmptyQuestion
  | uncaught (exc : String)
  deriving DecidableEq

/-- The prompt the `stuff` chain builds: all retrieved fragment texts
concatenated, followed by the question. -/
def stuffPrompt (docs : List Frag) (question : String) : String :=
  String.intercalate "\n\n" (docs.map Frag.text) ++ "\n\nQuestion: " ++ question

/-- Embedding of the "Obtener Respuesta" handler (src/app.py lines
162-186): an empty question only warns; otherwise the retrieved documents
are stuffed into one prompt and the generation model is called exactly
once, its text shown and the set `{doc.metadata['source'] for doc in
relevant_docs}` listed as sources; a generation exception is not caught. -/
def obtenerRespuesta (retrieveDocs : String → List Frag)
    (gen : String → Except String String) (question : String) :
    HandlerOutcome × Nat :=
  if question = "" then (HandlerOutcome.warnEmptyQuestion, 0)
  else
    let docs := retrieveDocs question
    match gen (stuffPrompt docs question) with
    | Except.ok text =>
      (HandlerOutcome.answer text (docs.map Frag.source).toFinset, 1)
    | Except.error e => (HandlerOutcome.uncaught e, 1)

/-! ## Folder-id extraction (src/app.py line 141)

`folder_url.split('/')[-1].split('?')[0]` — Python's `str.split` with an
explicit separator, modelled character-exactly on `List Char`; `[-1]` and
`[0]` are `getLast?` and `head?`, with `none` standing for `IndexError`. -/

/-- Python `s.split(sep)` for a one-character separator: always returns a
non-empty list; the empty string splits to `[""]`. -/
def pySplit (sep : Char) : List Char → List (List Char)
  | [] => [[]]
  | c :: cs =>
    match pySplit sep cs with
    | [] => [[]]
    | r :: rs => if c = sep then [] :: r :: rs else (c :: r) :: rs

/-- Embedding of `folder_url.split('/')[-1].split('?')[0]`
(src/app.py line 141); `none` marks an `IndexError`. -/
def extractFolderId (url : List Char) : Option (List Char) :=
  match (pySplit '/' url).getLast? with
  | none => none
  | some lastPart =>
    match (pySplit '?' lastPart).head? with
    | none => none
    | some fid => some fid

/-! ## Helper lemmas -/

/-- If every document's fetched content is empty, the accumulation loop
produces no fragment. -/
lemma buildFragments_eq_nil_of_all_empty (fetch : Doc → String)
    (split : String → List String) (docs : List Doc)
    (h : ∀ d ∈ docs, fetch d = "") :
    buildFragments fetch split docs = [] := by
  induction docs with
  | nil => rfl
  | cons d ds ih =>
    have hd : fetch d = "" := h d (List.mem_cons_self d ds)
    have hds : ∀ x ∈ ds, fetch x = "" := fun x hx => h x (List.mem_cons_of_mem d hx)
    simp [buildFragments, hd, ih hds]

/-- Every accumulated fragment comes from some listed document: its source
is that document's display name and its text is one of the chunks of that
document's fetched content. -/
lemma mem_buildFragments (fetch : Doc → String) (split : String → List String)
    (docs : List Doc) (f : Frag) (hf : f ∈ buildFragments fetch split docs) :
    ∃ d ∈ docs, f.source = d.name ∧ f.text ∈ split (fetch d) := by
  induction docs with
  | nil => simp [buildFragments] at hf
  | cons d ds ih =>
    simp only [buildFragments, List.mem_append] at hf
    rcases hf with hf | hf
    · by_cases hc : fetch d = ""
      · simp [hc] at hf
      · rw [if_neg hc] at hf
        simp only [docFragments, List.mem_map] at hf
        obtain ⟨t, ht, rfl⟩ := hf
        exact ⟨d, List.mem_cons_self d ds, rfl, ht⟩
    · obtain ⟨d', hd', hs, ht⟩ := ih hf
      exact ⟨d', List.mem_cons_of_mem d hd', hs, ht⟩

/-- When the build returns an index, the index is exactly the accumulated
fragment list. -/
lemma create_vector_db_eq_some (fetch : Doc → String)
    (split : String → List String) (docs : List Doc) (idx : List Frag)
    (h : (create_vector_db fetch split docs).1 = some idx) :
    idx = buildFragments fetch split docs := by
  unfold create_vector_db at h
  by_cases hd : docs = []
  · simp [hd] at h
  · rw [if_neg hd] at h
    by_cases hf : buildFragments fetch split docs = []
    · simp [hf] at h
    · simp only [if_neg hf] at h
      exact (Option.some_inj.mp h).symm

/-- `pySplit` never returns the empty list (like Python's `str.split`). -/
lemma pySplit_ne_nil (sep : Char) (s : List Char) : pySplit sep s ≠ [] := by
  cases s with
  | nil => simp [pySplit]
  | cons c cs =>
    unfold pySplit
    cases pySplit sep cs with
    | nil => simp
    | cons r rs =>
      by_cases hc : c = sep <;> simp [hc]

/-- A non-empty list has a last element. -/
lemma getLast?_isSome_of_ne_nil {α : Type} (l : List α) (h : l ≠ []) :
    l.getLast?.isSome := by
  cases l with
  | nil => exact absurd rfl h
  | cons a as => simp [List.getLast?_isSome]

/-- If every sub-traversal succeeds, the extend-loop succeeds. -/
lemma traverseAll_isSome (f : String → Option (List Doc)) (l : List String)
    (h : ∀ s ∈ l, (f s).isSome) : (traverseAll f l).isSome := by
  induction l with
  | nil => simp [traverseAll]
  | cons s ss ih =>
    have hs : (f s).isSome := h s (List.mem_cons_self s ss)
    have hss : (traverseAll f ss).isSome :=
      ih (fun x hx => h x (List.mem_cons_of_mem s hx))
    unfold traverseAll
    obtain ⟨r, hr⟩ := Option.isSome_iff_exists.mp hs
    obtain ⟨rs, hrs⟩ := Option.isSome_iff_exists.mp hss
    rw [hr, hrs]
    rfl

/-- Inserting into the ranked list adds exactly one element. -/
lemma insertScored_length (score : Frag → Int) (f : Frag) (l : List Frag) :
    (insertScored score f l).length = l.length + 1 := by
  induction l with
  | nil => rfl
  | cons g gs ih =>
    unfold insertScored
    by_cases hc : score g < score f <;> simp [hc, ih]

/-- Ranking preserves the number of indexed fragments. -/
lemma rankByScore_length (score : Frag → Int) (l : List Frag) :
    (rankByScore score l).length = l.length := by
  induction l with
  | nil => rfl
  | cons f fs ih => simp [rankByScore, insertScored_length, ih]

/-! ## Claim C1 — batched index construction -/

/-- Claim C1 counterexample: with one document whose content splits into
101 chunks, `create_vector_db` performs exactly one embedding/index call
containing all 101 fragments — not a partition into batches of at most
100 with a first insert and subsequent appends. -/
theorem c1_batching_counterexample :
    ((create_vector_db (fun _ => "x") (fun _ => List.replicate 101 "c")
        [⟨"1", "D", "text/plain"⟩]).2.map List.length) = [101]
      ∧ ¬ (101 ≤ 100) := by
  constructor
  · rfl
  · decide

/-- Claim C1 (amended): whenever any fragments accumulate, the build hands
them to embedding/index construction in a single `FAISS.from_documents`
call containing the entire accumulated list; there is no batch partition
and no append-to-existing-index step (the 0.1 s pause of src/app.py line
107 occurs per document, not per batch). -/
theorem c1_single_embedding_call (fetch : Doc → String)
    (split : String → List String) (docs : List Doc)
    (h : buildFragments fetch split docs ≠ []) :
    (create_vector_db fetch split docs).2 = [buildFragments fetch split docs] := by
  have hd : docs ≠ [] := by
    intro hnil
    exact h (by rw [hnil]; rfl)
  unfold create_vector_db
  rw [if_neg hd]
  simp only [if_neg h]

/-- Witness for C1 at a concrete input. -/
theorem c1_single_embedding_call_witness :
    buildFragments (fun _ => "x") (fun _ => ["a", "b"]) [⟨"1", "D", "text/plain"⟩] ≠ []
      ∧ (create_vector_db (fun _ => "x") (fun _ => ["a", "b"])
          [⟨"1", "D", "text/plain"⟩]).2
        = [buildFragments (fun _ => "x") (fun _ => ["a", "b"])
            [⟨"1", "D", "text/plain"⟩]] :=
  ⟨by decide,
   c1_single_embedding_call (fun _ => "x") (fun _ => ["a", "b"])
     [⟨"1", "D", "text/plain"⟩] (by decide)⟩

/-! ## Claim C2 — no-context short-circuit -/

/-- Claim C2 counterexample: with an empty retrieved-fragment sequence the
handler still invokes the generation model (call count 1, not 0) and
returns the model's text rather than a fixed insufficient-information
result. -/
theorem c2_short_circuit_counterexample :
    (obtenerRespuesta (fun _ => []) (fun _ => Except.ok "made-up") "q").2 ≠ 0
      ∧ (obtenerRespuesta (fun _ => []) (fun _ => Except.ok "made-up") "q").1
        = HandlerOutcome.answer "made-up" ∅ := by
  constructor
  · decide
  · rfl

/-- Claim C2 (amended): for every non-empty question the handler invokes
the Generation Service exactly once — in particular also when the
retrieved fragment sequence is empty; there is no insufficient-information
short-circuit in src/app.py lines 162-186. -/
theorem c2_generation_always_called (retrieveDocs : String → List Frag)
    (gen : String → Except String String) (q : String) (hq : q ≠ "") :
    (obtenerRespuesta retrieveDocs gen q).2 = 1 := by
  unfold obtenerRespuesta
  rw [if_neg hq]
  cases h : gen (stuffPrompt (retrieveDocs q) q) <;> simp [h]

/-- Witness for C2 at a concrete input with empty retrieval. -/
theorem c2_generation_always_called_witness :
    "q" ≠ ""
      ∧ (obtenerRespuesta (fun _ => []) (fun _ => Except.ok "made-up") "q").2 = 1 :=
  ⟨by decide,
   c2_generation_always_called (fun _ => []) (fun _ => Except.ok "made-up") "q"
     (by decide)⟩

/-! ## Claim C3 — generation failures caught at the boundary -/

/-- Claim C3 counterexample: a failing generation call surfaces from the
handler as a raw uncaught exception, not as a converted user-visible error
result. -/
theorem c3_uncaught_counterexample :
    (obtenerRespuesta (fun _ => [⟨"t", "S"⟩])
        (fun _ => Except.error "429 ResourceExhausted") "q").1
      = HandlerOutcome.uncaught "429 ResourceExhausted" := by
  rfl

/-- Claim C3 (amended): for every non-empty question, when the generation
call raises, the exception propagates out of the handler unconverted (the
handler body src/app.py lines 162-186 contains no try/except). -/
theorem c3_generation_failure_propagates (retrieveDocs : String → List Frag)
    (gen : String → Except String String) (q e : String) (hq : q ≠ "")
    (he : gen (stuffPrompt (retrieveDocs q) q) = Except.error e) :
    (obtenerRespuesta retrieveDocs gen q).1 = HandlerOutcome.uncaught e := by
  unfold obtenerRespuesta
  rw [if_neg hq]
  simp only [he]

/-- Witness for C3 at a concrete input. -/
theorem c3_generation_failure_propagates_witness :
    "q" ≠ ""
      ∧ (fun (_ : String) => (Except.error "quota" : Except String String))
          (stuffPrompt ((fun _ => [⟨"t", "S"⟩]) "q") "q") = Except.error "quota"
      ∧ (obtenerRespuesta (fun _ => [⟨"t", "S"⟩]) (fun _ => Except.error "quota")
          "q").1 = HandlerOutcome.uncaught "quota" :=
  ⟨by decide, rfl,
   c3_generation_failure_propagates (fun _ => [⟨"t", "S"⟩])
     (fun _ => Except.error "quota") "q" "quota" (by decide) rfl⟩

/-! ## Claim C4 — fetch failures yield empty text -/

/-- Claim C4 counterexample: a document whose downloaded bytes are not
valid UTF-8 makes `get_doc_content` raise (`UnicodeDecodeError` is not in
the `except HttpError` clause of src/app.py line 79) instead of returning
empty text. -/
theorem c4_decode_error_counterexample :
    get_doc_content (fun _ => FetchResult.ok [255]) (fun _ => FetchResult.ok [255])
        (fun _ => none) ⟨"f1", "bad.txt", "text/plain"⟩
      = Except.error "UnicodeDecodeError" := by
  rfl

/-- Claim C4 (amended): `get_doc_content` returns empty text (not an
error) whenever the Drive request raises `HttpError`, for either download
path; only an undecodable body escapes as an exception. -/
theorem c4_http_error_returns_empty (exportMedia getMedia : String → FetchResult)
    (decode : List Nat → Option String) (doc : Doc) (msg : String)
    (h : (if doc.mimeType = googleDocMime then exportMedia doc.id
          else getMedia doc.id) = FetchResult.httpError msg) :
    get_doc_content exportMedia getMedia decode doc = Except.ok "" := by
  unfold get_doc_content
  rw [h]

/-- Witness for C4 at a concrete input. -/
theorem c4_http_error_returns_empty_witness :
    (if (⟨"f1", "a.txt", "text/plain"⟩ : Doc).mimeType = googleDocMime
        then (fun _ => FetchResult.httpError "403") (Doc.id ⟨"f1", "a.txt", "text/plain"⟩)
        else (fun _ => FetchResult.httpError "403") (Doc.id ⟨"f1", "a.txt", "text/plain"⟩))
      = FetchResult.httpError "403"
      ∧ get_doc_content (fun _ => FetchResult.httpError "403")
          (fun _ => FetchResult.httpError "403") (fun _ => none)
          ⟨"f1", "a.txt", "text/plain"⟩ = Except.ok "" :=
  ⟨by decide,
   c4_http_error_returns_empty (fun _ => FetchResult.httpError "403")
     (fun _ => FetchResult.httpError "403") (fun _ => none)
     ⟨"f1", "a.txt", "text/plain"⟩ "403" (by decide)⟩

/-! ## Claim C5 — empty corpus / all-empty contents build no index -/

/-- Claim C5: whenever every document yields empty content (including the
empty corpus), `create_vector_db` returns no index and performs no
embedding call — a terminal non-error outcome, not a raise and not a
partial index. -/
theorem c5_all_empty_builds_none (fetch : Doc → String)
    (split : String → List String) (docs : List Doc)
    (h : ∀ d ∈ docs, fetch d = "") :
    (create_vector_db fetch split docs).1 = none
      ∧ (create_vector_db fetch split docs).2 = [] := by
  by_cases hd : docs = []
  · subst hd
    exact ⟨rfl, rfl⟩
  · have hf : buildFragments fetch split docs = [] :=
      buildFragments_eq_nil_of_all_empty fetch split docs h
    unfold create_vector_db
    rw [if_neg hd]
    simp [hf]

/-- Witness for C5: a three-document corpus in which every fetch fails. -/
theorem c5_all_empty_builds_none_witness :
    (∀ d ∈ [(⟨"1", "A", "text/plain"⟩ : Doc), ⟨"2", "B", "text/plain"⟩,
        ⟨"3", "C", "text/plain"⟩], (fun (_ : Doc) => "") d = "")
      ∧ (create_vector_db (fun _ => "") (fun s => [s])
          [⟨"1", "A", "text/plain"⟩, ⟨"2", "B", "text/plain"⟩,
           ⟨"3", "C", "text/plain"⟩]).1 = none
      ∧ (create_vector_db (fun _ => "") (fun s => [s])
          [⟨"1", "A", "text/plain"⟩, ⟨"2", "B", "text/plain"⟩,
           ⟨"3", "C", "text/plain"⟩]).2 = [] :=
  ⟨by intro d _; rfl,
   (c5_all_empty_builds_none (fun _ => "") (fun s => [s])
     [⟨"1", "A", "text/plain"⟩, ⟨"2", "B", "text/plain"⟩,
      ⟨"3", "C", "text/plain"⟩] (by intro d _; rfl)).1,
   (c5_all_empty_builds_none (fun _ => "") (fun s => [s])
     [⟨"1", "A", "text/plain"⟩, ⟨"2", "B", "text/plain"⟩,
      ⟨"3", "C", "text/plain"⟩] (by intro d _; rfl)).2⟩

/-! ## Claim C6 — deduplicated source set -/

/-- Claim C6: for a non-empty retrieved fragment sequence and a successful
generation call, the handler's answer carries as sources exactly the set
of source document names of those fragments — an element is a source iff
some retrieved fragment carries it, so duplicates collapse and order is
irrelevant. -/
theorem c6_sources_are_dedup_of_fragments (retrieveDocs : String → List Frag)
    (gen : String → Except String String) (q text : String) (hq : q ≠ "")
    (_hne : retrieveDocs q ≠ [])
    (hgen : gen (stuffPrompt (retrieveDocs q) q) = Except.ok text) :
    (obtenerRespuesta retrieveDocs gen q).1
        = HandlerOutcome.answer text ((retrieveDocs q).map Frag.source).toFinset
      ∧ ∀ s : String, s ∈ ((retrieveDocs q).map Frag.source).toFinset
          ↔ ∃ f ∈ retrieveDocs q, f.source = s := by
  constructor
  · unfold obtenerRespuesta
    rw [if_neg hq]
    simp [hgen]
  · intro s
    simp [List.mem_toFinset, List.mem_map]

/-- Witness for C6: fragments drawn from documents A, B, A yield the
source set `{A, B}`. -/
theorem c6_sources_are_dedup_of_fragments_witness :
    "q" ≠ ""
      ∧ (fun (_ : String) => [(⟨"t1", "A"⟩ : Frag), ⟨"t2", "B"⟩, ⟨"t3", "A"⟩]) "q" ≠ []
      ∧ (fun (_ : String) => (Except.ok "ans" : Except String String))
          (stuffPrompt ((fun _ => [(⟨"t1", "A"⟩ : Frag), ⟨"t2", "B"⟩, ⟨"t3", "A"⟩]) "q") "q")
          = Except.ok "ans"
      ∧ (obtenerRespuesta (fun _ => [⟨"t1", "A"⟩, ⟨"t2", "B"⟩, ⟨"t3", "A"⟩])
          (fun _ => Except.ok "ans") "q").1
        = HandlerOutcome.answer "ans"
            (([(⟨"t1", "A"⟩ : Frag), ⟨"t2", "B"⟩, ⟨"t3", "A"⟩].map Frag.source).toFinset)
      ∧ ([(⟨"t1", "A"⟩ : Frag), ⟨"t2", "B"⟩, ⟨"t3", "A"⟩].map Frag.source).toFinset
        = ({"A", "B"} : Finset String) :=
  ⟨by decide, by decide, rfl,
   (c6_sources_are_dedup_of_fragments
     (fun _ => [⟨"t1", "A"⟩, ⟨"t2", "B"⟩, ⟨"t3", "A"⟩])
     (fun _ => Except.ok "ans") "q" "ans" (by decide) (by decide) rfl).1,
   by decide⟩

/-! ## Claim C7 — retrieval bound -/

/-- Claim C7 counterexample: an index holding a single fragment with the
default `k = 4` returns that fragment, not the empty sequence — retrieval
is not empty whenever the index holds fewer than `k` fragments. -/
theorem c7_fewer_than_k_counterexample :
    retrieve (fun _ => 0) [⟨"text", "S"⟩] defaultK = [⟨"text", "S"⟩]
      ∧ ([(⟨"text", "S"⟩ : Frag)].length < defaultK
      ∧ retrieve (fun _ => 0) [⟨"text", "S"⟩] defaultK ≠ []) := by
  refine ⟨rfl, by decide, by decide⟩

/-- Claim C7 (amended): retrieval returns exactly `min k n` fragments for
an index of size `n` — hence at most `k`, and the empty sequence on the
empty index — and, being a total function, never raises. -/
theorem c7_retrieve_bound (score : Frag → Int) (index : List Frag) (k : Nat) :
    (retrieve score index k).length = min k index.length
      ∧ retrieve score [] k = [] := by
  constructor
  · unfold retrieve
    rw [List.length_take, rankByScore_length]
  · simp [retrieve, rankByScore]

/-! ## Claim C8 — traversal visits folders once and terminates -/

/-- A malformed store in which folder "A" reports itself as its own
sub-folder. -/
def cyclicStore : FolderStore where
  docsIn := fun _ => [⟨"d1", "Doc", "text/plain"⟩]
  subfoldersOf := fun _ => ["A"]

/-- No amount of fuel completes the traversal of the self-descendant
folder: the source recursion never returns. -/
lemma cyclicStore_no_fuel (fuel : Nat) :
    get_all_docs_from_folder cyclicStore fuel "A" = none := by
  induction fuel with
  | zero => rfl
  | succ n ih =>
    unfold get_all_docs_from_folder
    have hsub : cyclicStore.subfoldersOf "A" = ["A"] := rfl
    rw [hsub]
    simp only [traverseAll]
    rw [ih]

/-- Claim C8 counterexample: on a store where a folder reports itself as a
descendant, `get_all_docs_from_folder` does not terminate — no recursion
depth suffices to produce a result (the Python source recurses without a
cycle guard until the interpreter fails). -/
theorem c8_cycle_counterexample :
    ¬ ∃ fuel docs, get_all_docs_from_folder cyclicStore fuel "A" = some docs := by
  rintro ⟨fuel, docs, h⟩
  rw [cyclicStore_no_fuel fuel] at h
  exact Option.noConfusion h

/-- Claim C8 (amended): the traversal terminates for every folder
structure whose sub-folder chains from the root are bounded (in
particular, every acyclic structure); a folder reported as its own
descendant instead makes the recursion diverge. -/
theorem c8_bounded_depth_terminates (store : FolderStore) (n : Nat)
    (folderId : String) (h : ReachDepth store n folderId) :
    (get_all_docs_from_folder store n folderId).isSome := by
  induction h with
  | step m fid hsub ih =>
    unfold get_all_docs_from_folder
    have ht : (traverseAll (fun sub => get_all_docs_from_folder store m sub)
        (store.subfoldersOf fid)).isSome :=
      traverseAll_isSome _ _ (fun s hs => ih s hs)
    obtain ⟨rs, hrs⟩ := Option.isSome_iff_exists.mp ht
    rw [hrs]
    rfl

/-- An acyclic two-level store: "root" contains sub-folder "c", which has
no sub-folders. -/
def chainStore : FolderStore where
  docsIn := fun fid => [⟨fid, fid, "text/plain"⟩]
  subfoldersOf := fun fid => if fid = "root" then ["c"] else []

/-- Witness for C8: the acyclic two-level store is traversed completely
with depth 2. -/
theorem c8_bounded_depth_terminates_witness :
    ReachDepth chainStore 2 "root"
      ∧ (get_all_docs_from_folder chainStore 2 "root").isSome :=
  have hc : ReachDepth chainStore 1 "c" :=
    ReachDepth.step 0 "c" (by intro s hs; simp [chainStore] at hs)
  have hr : ReachDepth chainStore 2 "root" :=
    ReachDepth.step 1 "root" (by
      intro s hs
      simp [chainStore] at hs
      subst hs
      exact hc)
  ⟨hr, c8_bounded_depth_terminates chainStore 2 "root" hr⟩

/-! ## Claim C9 — provenance preservation -/

/-- Claim C9: every fragment of a built index originates from a listed
document, its source name equals that document's display name, and its
text is one of the chunks of that document's fetched content — provenance
survives chunking and index construction intact. -/
theorem c9_provenance_preserved (fetch : Doc → String)
    (split : String → List String) (docs : List Doc) (idx : List Frag)
    (h : (create_vector_db fetch split docs).1 = some idx) :
    ∀ f ∈ idx, ∃ d ∈ docs, f.source = d.name ∧ f.text ∈ split (fetch d) := by
  intro f hf
  have hidx : idx = buildFragments fetch split docs :=
    create_vector_db_eq_some fetch split docs idx h
  rw [hidx] at hf
  exact mem_buildFragments fetch split docs f hf

/-- Witness for C9 at a concrete one-document corpus. -/
theorem c9_provenance_preserved_witness :
    (create_vector_db (fun _ => "abc") (fun s => [s]) [⟨"1", "A", "text/plain"⟩]).1
        = some [⟨"abc", "A"⟩]
      ∧ ∀ f ∈ [(⟨"abc", "A"⟩ : Frag)], ∃ d ∈ [(⟨"1", "A", "text/plain"⟩ : Doc)],
          f.source = d.name ∧ f.text ∈ (fun s => [s]) ((fun _ => "abc") d) :=
  ⟨by decide,
   c9_provenance_preserved (fun _ => "abc") (fun s => [s])
     [⟨"1", "A", "text/plain"⟩] [⟨"abc", "A"⟩] (by decide)⟩

/-! ## Claim C10 — folder-id extraction never raises -/

/-- Claim C10: for every non-empty URL string, the expression
`folder_url.split('/')[-1].split('?')[0]` evaluates to a value — both
`split` results are non-empty lists, so neither `[-1]` nor `[0]` raises
`IndexError` (and string input precludes `AttributeError`), leaving the
"URL de carpeta no válida" branch unreachable. -/
theorem c10_extract_folder_id_total (url : List Char) (_h : url ≠ []) :
    (extractFolderId url).isSome := by
  unfold extractFolderId
  have h1 : (pySplit '/' url).getLast?.isSome :=
    getLast?_isSome_of_ne_nil _ (pySplit_ne_nil '/' url)
  obtain ⟨lastPart, hl⟩ := Option.isSome_iff_exists.mp h1
  rw [hl]
  have h2 : pySplit '?' lastPart ≠ [] := pySplit_ne_nil '?' lastPart
  cases hp : pySplit '?' lastPart with
  | nil => exact absurd hp h2
  | cons r rs => simp [hp]

/-- Witness for C10 on a concrete Drive folder URL. -/
theorem c10_extract_folder_id_total_witness :
    ("https://d.g.com/drive/folders/ABC123?usp=s".toList ≠ [])
      ∧ (extractFolderId "https://d.g.com/drive/folders/ABC123?usp=s".toList).isSome :=
  ⟨by decide,
   c10_extract_folder_id_total "https://d.g.com/drive/folders/ABC123?usp=s".toList
     (by decide)⟩

end DocTalk
